import Mathlib

/-!
Shallow embedding of `src/il2cppdumper-wrapper.py`.

The program has two behavioural cores:

* `get_native_dialog_selection` — a best-effort wrapper around the external
  dialog helpers `zenity` and `kdialog`, returning `(selected_path, status)`.
* the run controller — `run_dumper` (synchronous pre-checks on the GUI
  thread) and `run_dumper_async` (the background worker that creates the
  output directory and invokes the external `il2cppdumper` tool).

External effects (the operating system name, `shutil.which`, `os.path`
queries, `os.makedirs`, `subprocess.run`) are modelled as fields of explicit
environment structures, so every function is a pure, executable state
transformer.  The background worker additionally returns the ordered trace
of its externally visible actions (directory creation, tool invocation,
re-enabling of the run trigger).
-/

/-- Outcome of `subprocess.run` for a dialog helper: either the process
completed with a return code and captured stdout, or the call raised. -/
inductive DialogRunOutcome where
  | ok (returncode : Int) (stdout : String)
  | exn (message : String)
deriving DecidableEq, Repr

/-- Environment visible to `get_native_dialog_selection`: `os.name`,
presence of helpers on the search path (`shutil.which`), and the behaviour
of `subprocess.run` on a given argument vector. -/
structure DialogEnv where
  os_name : String
  which : String → Bool
  run_proc : List String → DialogRunOutcome

/-- Python truthiness of the optional `initial_dir` argument:
`None` and the empty string are falsy. -/
def truthy : Option String → Bool
  | none => false
  | some s => s ≠ ""

/-- `os.path.join` of `d` with the empty string, on POSIX: returns `d`
unchanged when it is empty
or already ends with a separator, otherwise appends one. -/
def os_path_join_empty (d : String) : String :=
  if d = "" then ""
  else if d.endsWith "/" then d
  else d ++ "/"

/-- Python `str.strip()`: remove whitespace from both ends.  Implemented by
structural recursion over the character list so it evaluates by `decide`. -/
def py_strip (s : String) : String :=
  ⟨((s.data.dropWhile Char.isWhitespace).reverse.dropWhile Char.isWhitespace).reverse⟩

/-- Argument vector built for `zenity` (source lines 32–37). -/
def zenity_command (prompt file_type : String) (initial_dir : Option String) : List String :=
  let command := ["zenity", "--file-selection", "--title", prompt]
  let command := if file_type = "directory" then command ++ ["--directory"] else command
  if truthy initial_dir then
    command ++ ["--filename", os_path_join_empty (initial_dir.getD "")]
  else command

/-- Argument vector built for `kdialog` (source lines 42–48). -/
def kdialog_command (prompt file_type : String) (initial_dir : Option String) : List String :=
  let command := ["kdialog", "--title", prompt]
  let command :=
    if file_type = "directory" then command ++ ["--getexistingdirectory"]
    else command ++ ["--getopenfilename"]
  if truthy initial_dir then command ++ [initial_dir.getD ""] else command

/-- The `tool_found` flag and `command` list after the helper-probing chain
(source lines 27–48): `zenity` is probed first, then `kdialog`. -/
def build_dialog_command (zenity_found kdialog_found : Bool)
    (prompt file_type : String) (initial_dir : Option String) : Bool × List String :=
  if zenity_found then (true, zenity_command prompt file_type initial_dir)
  else if kdialog_found then (true, kdialog_command prompt file_type initial_dir)
  else (false, [])

/-- `get_native_dialog_selection(prompt, file_type="file", initial_dir=None)`
(source lines 12–74).  Returns `(selected_path, status_code)` with status
`0` = selected, `1` = user cancelled, `-1` = unavailable/failed. -/
def get_native_dialog_selection (env : DialogEnv) (prompt : String)
    (file_type : String := "file") (initial_dir : Option String := none) :
    Option String × Int :=
  if env.os_name ≠ "posix" then (none, -1)
  else
    let probe := build_dialog_command (env.which "zenity") (env.which "kdialog")
      prompt file_type initial_dir
    let tool_found := probe.1
    let command := probe.2
    if ¬ tool_found then (none, -1)
    else if ¬ command.isEmpty then
      match env.run_proc command with
      | DialogRunOutcome.ok returncode stdout =>
        let selected_path := py_strip stdout
        if returncode = 0 ∧ selected_path ≠ "" then (some selected_path, 0)
        else if returncode = 1 then (none, 1)
        else (none, -1)
      | DialogRunOutcome.exn _ => (none, -1)
    else (none, -1)

/-- What a path names on disk; `os.path.exists` is true for `file` and
`dir`, `os.path.isdir` only for `dir`. -/
inductive PathKind where
  | file
  | dir
  | absent
deriving DecidableEq, Repr

/-- Outcome of `subprocess.run` for the dump tool: completed with captured
output, raised `FileNotFoundError`, or raised some other exception. -/
inductive SubprocResult where
  | completed (returncode : Int) (stdout stderr : String)
  | file_not_found
  | exn (message : String)
deriving DecidableEq, Repr

/-- Externally visible actions performed by the background worker, in
order: an `os.makedirs` attempt, a `subprocess.run` of the dump tool, and
re-enabling the run button. -/
inductive WorkerAction where
  | mkdirs (dir : String)
  | runTool (command : List String)
  | enableTrigger
deriving DecidableEq, Repr

/-- Environment visible to the run controller: what each path names on
disk, the behaviour of `os.makedirs` (error message on `OSError`), and the
behaviour of `subprocess.run` on the dump-tool command. -/
structure Env where
  fs : String → PathKind
  makedirs : String → Except String Unit
  run_proc : List String → SubprocResult

/-- `os.path.exists`. -/
def os_path_exists (env : Env) (p : String) : Bool :=
  match env.fs p with
  | PathKind.absent => false
  | _ => true

/-- `os.path.isdir`. -/
def os_path_isdir (env : Env) (p : String) : Bool :=
  match env.fs p with
  | PathKind.dir => true
  | _ => false

/-- GUI state relevant to the run workflow: the three entry fields, the
output log as an ordered list of `(message, tag)` pairs, and whether the
run button is enabled. -/
structure AppState where
  exec_entry : String
  meta_entry : String
  output_entry : String
  output_log : List (String × Option String)
  run_button_enabled : Bool
deriving DecidableEq, Repr

/-- `_log_message(message, tag)`: append one entry to the output log. -/
def log_message (s : AppState) (message : String) (tag : Option String) : AppState :=
  { s with output_log := s.output_log ++ [(message, tag)] }

/-- Steps 3–9 of the worker (source lines 207–233): log the assembled
command, run the dump tool, report stdout/stderr/exit status or the raised
exception, and finally re-enable the run button.  `trace` is the action
trace accumulated so far. -/
def run_tool_step (env : Env) (exec_file meta_file output_dir : String)
    (s : AppState) (trace : List WorkerAction) : AppState × List WorkerAction :=
  let command := ["il2cppdumper", exec_file, meta_file, output_dir]
  let s := log_message s
    ("Preparing to run: `" ++ String.intercalate " " command ++ "`") (some "blue")
  match env.run_proc command with
  | SubprocResult.completed returncode stdout stderr =>
    let s := if stdout ≠ "" then log_message s stdout (some "info") else s
    let s := if stderr ≠ "" then
        log_message s ("Error: (stderr): " ++ stderr) (some "red")
      else s
    let s :=
      if returncode = 0 then
        log_message s "Command completed successfully! âœ¨" (some "green")
      else
        log_message s ("Command failed with exit code " ++ toString returncode) (some "red")
    ({ s with run_button_enabled := true },
     trace ++ [WorkerAction.runTool command, WorkerAction.enableTrigger])
  | SubprocResult.file_not_found =>
    ({ log_message s
        "Error: \x27il2cppdumper\x27 command not found. Please ensure it\x27s installed and in your system\x27s PATH."
        (some "red") with run_button_enabled := true },
     trace ++ [WorkerAction.runTool command, WorkerAction.enableTrigger])
  | SubprocResult.exn e =>
    ({ log_message s ("An unexpected error occurred: " ++ e) (some "red") with
        run_button_enabled := true },
     trace ++ [WorkerAction.runTool command, WorkerAction.enableTrigger])

/-- `run_dumper_async` (source lines 182–233), the background worker:
re-validate the fields, ensure the output directory exists, then run the
dump tool via `run_tool_step`.  Returns the new GUI state together with the
ordered trace of external actions. -/
def run_dumper_async (env : Env) (s : AppState) : AppState × List WorkerAction :=
  let exec_file := s.exec_entry
  let meta_file := s.meta_entry
  let output_dir := s.output_entry
  if ¬ (exec_file ≠ "" ∧ meta_file ≠ "" ∧ output_dir ≠ "") then
    (log_message s "Internal Error: Fields were not validated." (some "red"), [])
  else if ¬ os_path_isdir env output_dir then
    match env.makedirs output_dir with
    | Except.error e =>
      ({ log_message s
          ("Error: creating output directory \x27" ++ output_dir ++ "\x27: " ++ e)
          (some "red") with run_button_enabled := true },
       [WorkerAction.mkdirs output_dir, WorkerAction.enableTrigger])
    | Except.ok _ =>
      run_tool_step env exec_file meta_file output_dir
        (log_message s
          ("Warning: Output directory doesn\x27t exist, creating output directory: " ++ output_dir)
          (some "warning"))
        [WorkerAction.mkdirs output_dir]
  else
    run_tool_step env exec_file meta_file output_dir s []

/-- `run_dumper` (source lines 235–265), the synchronous part of the run
trigger: pre-checks, then disable the button, clear the log and spawn the
worker.  The boolean reports whether the worker thread was spawned. -/
def run_dumper (env : Env) (s : AppState) : AppState × Bool :=
  let exec_file := s.exec_entry
  let meta_file := s.meta_entry
  let output_dir := s.output_entry
  if ¬ (exec_file ≠ "" ∧ meta_file ≠ "" ∧ output_dir ≠ "") then
    (log_message s "Error: All fields must be filled!" (some "red"), false)
  else if ¬ os_path_exists env exec_file then
    (log_message s ("Error: Executable file not found at \x27" ++ exec_file ++ "\x27")
      (some "red"), false)
  else if ¬ os_path_exists env meta_file then
    (log_message s ("Error: Metadata file not found at \x27" ++ meta_file ++ "\x27")
      (some "red"), false)
  else
    ({ s with run_button_enabled := false, output_log := [] }, true)

/-- The whole run trigger: the synchronous pre-checks followed, when they
pass, by the spawned worker (the worker reads the same field values the
pre-checks saw, since nothing mutates them in between). -/
def trigger_run (env : Env) (s : AppState) : AppState × List WorkerAction :=
  let r := run_dumper env s
  if r.2 then run_dumper_async env r.1 else (r.1, [])

/-- The command the selector hands to `subprocess.run`, as determined by
the probing chain. -/
def dialog_command (env : DialogEnv) (prompt file_type : String)
    (initial_dir : Option String) : List String :=
  (build_dialog_command (env.which "zenity") (env.which "kdialog")
    prompt file_type initial_dir).2

lemma zenity_command_ne_nil (prompt file_type : String) (initial_dir : Option String) :
    zenity_command prompt file_type initial_dir ≠ [] := by
  unfold zenity_command
  split <;> split <;> simp

lemma kdialog_command_ne_nil (prompt file_type : String) (initial_dir : Option String) :
    kdialog_command prompt file_type initial_dir ≠ [] := by
  unfold kdialog_command
  split <;> split <;> simp

/-- C2: when the selector reaches helper execution (POSIX and at least one
helper present), the helper outcome is mapped exactly as: exit 0 with
non-empty trimmed stdout ↦ `(some trimmed, 0)`; exit 1 ↦ `(none, 1)`; any
other exit, exit 0 with empty trimmed stdout, or a raised exception ↦
`(none, -1)`. -/
theorem dialog_exec_result_mapping (env : DialogEnv) (prompt file_type : String)
    (initial_dir : Option String)
    (hpos : env.os_name = "posix")
    (htool : env.which "zenity" = true ∨ env.which "kdialog" = true) :
    (∀ rc out, env.run_proc (dialog_command env prompt file_type initial_dir) =
        DialogRunOutcome.ok rc out →
      get_native_dialog_selection env prompt file_type initial_dir =
        (if rc = 0 ∧ py_strip out ≠ "" then (some (py_strip out), 0)
         else if rc = 1 then (none, 1)
         else (none, -1))) ∧
    (∀ m, env.run_proc (dialog_command env prompt file_type initial_dir) =
        DialogRunOutcome.exn m →
      get_native_dialog_selection env prompt file_type initial_dir = (none, -1)) := by
  unfold get_native_dialog_selection dialog_command
  rcases hz : env.which "zenity" with _ | _
  · rcases hk : env.which "kdialog" with _ | _
    · simp [hz, hk] at htool
    · simp only [build_dialog_command, hz, hk, Bool.false_eq_true, if_false, if_true,
        hpos, ne_eq, not_true_eq_false]
      constructor
      · intro rc out hrun
        simp [hrun, List.isEmpty_iff, kdialog_command_ne_nil]
      · intro m hrun
        simp [hrun, List.isEmpty_iff, kdialog_command_ne_nil]
  · simp only [build_dialog_command, hz, if_true, hpos, ne_eq, not_true_eq_false]
    constructor
    · intro rc out hrun
      simp [hrun, List.isEmpty_iff, zenity_command_ne_nil]
    · intro m hrun
      simp [hrun, List.isEmpty_iff, zenity_command_ne_nil]

/-- Witness for C2: a concrete POSIX environment with `zenity` present
whose helper exits 0 printing `/tmp/x`, and the selector returns
`(some "/tmp/x", 0)`. -/
theorem dialog_exec_result_mapping_witness :
    get_native_dialog_selection
      { os_name := "posix", which := fun t => t = "zenity",
        run_proc := fun _ => DialogRunOutcome.ok 0 "/tmp/x\n" } "Pick" "file" none =
      (some "/tmp/x", 0) := by
  have h := dialog_exec_result_mapping
    { os_name := "posix", which := fun t => t = "zenity",
      run_proc := fun _ => DialogRunOutcome.ok 0 "/tmp/x\n" } "Pick" "file" none
    (by decide) (Or.inl (by decide))
  have h0 := h.1 0 "/tmp/x\n" rfl
  have ht : py_strip "/tmp/x\n" = "/tmp/x" := by decide
  rw [ht] at h0
  simpa using h0

/-- C7: on a non-POSIX system, or when neither `zenity` nor `kdialog` is on
the search path, the selector returns `(none, -1)` (Unavailable); being a
total function, it raises nothing. -/
theorem dialog_unavailable_when_no_helper (env : DialogEnv)
    (prompt file_type : String) (initial_dir : Option String)
    (h : env.os_name ≠ "posix" ∨
         (env.which "zenity" = false ∧ env.which "kdialog" = false)) :
    get_native_dialog_selection env prompt file_type initial_dir = (none, -1) := by
  unfold get_native_dialog_selection
  by_cases hpos : env.os_name = "posix"
  · rcases h with h | ⟨hz, hk⟩
    · exact absurd hpos h
    · simp [hpos, build_dialog_command, hz, hk]
  · simp [hpos]

/-- Witness for C7: with `os.name = "nt"` the selector returns
`(none, -1)`. -/
theorem dialog_unavailable_when_no_helper_witness :
    get_native_dialog_selection
      { os_name := "nt", which := fun _ => true,
        run_proc := fun _ => DialogRunOutcome.ok 0 "x" } "Pick" "file" none =
      (none, -1) :=
  dialog_unavailable_when_no_helper _ "Pick" "file" none (Or.inl (by decide))

/-- C8: every selector result has one of exactly three shapes:
`(some p, 0)` with `p` non-empty, `(none, 1)`, or `(none, -1)`. -/
theorem dialog_result_shape (env : DialogEnv) (prompt file_type : String)
    (initial_dir : Option String) :
    (∃ p, p ≠ "" ∧
      get_native_dialog_selection env prompt file_type initial_dir = (some p, 0)) ∨
    get_native_dialog_selection env prompt file_type initial_dir = (none, 1) ∨
    get_native_dialog_selection env prompt file_type initial_dir = (none, -1) := by
  by_cases hpos : env.os_name = "posix"
  case neg =>
    right; right; simp [get_native_dialog_selection, hpos]
  rcases hz : env.which "zenity" with _ | _
  · rcases hk : env.which "kdialog" with _ | _
    · right; right
      simp [get_native_dialog_selection, hpos, build_dialog_command, hz, hk]
    · cases hrun : env.run_proc (kdialog_command prompt file_type initial_dir) with
      | ok rc out =>
        by_cases h0 : rc = 0 ∧ py_strip out ≠ ""
        · left
          exact ⟨py_strip out, h0.2, by
            simp [get_native_dialog_selection, hpos, build_dialog_command, hz, hk,
              List.isEmpty_iff, kdialog_command_ne_nil, hrun, h0]⟩
        · by_cases h1 : rc = 1
          · right; left
            simp [get_native_dialog_selection, hpos, build_dialog_command, hz, hk,
              List.isEmpty_iff, kdialog_command_ne_nil, hrun, h0, h1]
          · right; right
            simp [get_native_dialog_selection, hpos, build_dialog_command, hz, hk,
              List.isEmpty_iff, kdialog_command_ne_nil, hrun, h0, h1]
      | exn m =>
        right; right
        simp [get_native_dialog_selection, hpos, build_dialog_command, hz, hk,
          List.isEmpty_iff, kdialog_command_ne_nil, hrun]
  · cases hrun : env.run_proc (zenity_command prompt file_type initial_dir) with
    | ok rc out =>
      by_cases h0 : rc = 0 ∧ py_strip out ≠ ""
      · left
        exact ⟨py_strip out, h0.2, by
          simp [get_native_dialog_selection, hpos, build_dialog_command, hz,
            List.isEmpty_iff, zenity_command_ne_nil, hrun, h0]⟩
      · by_cases h1 : rc = 1
        · right; left
          simp [get_native_dialog_selection, hpos, build_dialog_command, hz,
            List.isEmpty_iff, zenity_command_ne_nil, hrun, h0, h1]
        · right; right
          simp [get_native_dialog_selection, hpos, build_dialog_command, hz,
            List.isEmpty_iff, zenity_command_ne_nil, hrun, h0, h1]
    | exn m =>
      right; right
      simp [get_native_dialog_selection, hpos, build_dialog_command, hz,
        List.isEmpty_iff, zenity_command_ne_nil, hrun]

/-- C3: if any of the three fields is empty at trigger time, `run_dumper`
appends exactly one red validation entry, spawns no worker, and the
spawned worker trace of the whole trigger is empty. -/
theorem run_dumper_empty_field (env : Env) (s : AppState)
    (h : s.exec_entry = "" ∨ s.meta_entry = "" ∨ s.output_entry = "") :
    run_dumper env s =
      (log_message s "Error: All fields must be filled!" (some "red"), false) ∧
    (trigger_run env s).2 = [] := by
  have hrd : run_dumper env s =
      (log_message s "Error: All fields must be filled!" (some "red"), false) := by
    unfold run_dumper
    rcases h with h | h | h <;> simp [h]
  refine ⟨hrd, ?_⟩
  unfold trigger_run
  simp [hrd]

/-- Witness for C3: a concrete state with an empty executable field. -/
theorem run_dumper_empty_field_witness :
    run_dumper
      { fs := fun _ => PathKind.file, makedirs := fun _ => Except.ok (),
        run_proc := fun _ => SubprocResult.completed 0 "" "" }
      { exec_entry := "", meta_entry := "meta.dat", output_entry := "out",
        output_log := [("old", none)], run_button_enabled := true } =
      (log_message
        { exec_entry := "", meta_entry := "meta.dat", output_entry := "out",
          output_log := [("old", none)], run_button_enabled := true }
        "Error: All fields must be filled!" (some "red"), false) ∧
    (trigger_run
      { fs := fun _ => PathKind.file, makedirs := fun _ => Except.ok (),
        run_proc := fun _ => SubprocResult.completed 0 "" "" }
      { exec_entry := "", meta_entry := "meta.dat", output_entry := "out",
        output_log := [("old", none)], run_button_enabled := true }).2 = [] :=
  run_dumper_empty_field _ _ (Or.inl rfl)

/-- C9: when any synchronous pre-check fails, `run_dumper` leaves the state
unchanged apart from one appended red log entry and spawns nothing; when
all pre-checks pass, it clears the log and disables the button immediately
before spawning the worker. -/
theorem run_dumper_log_frame (env : Env) (s : AppState) :
    ((s.exec_entry = "" ∨ s.meta_entry = "" ∨ s.output_entry = "" ∨
        os_path_exists env s.exec_entry = false ∨
        os_path_exists env s.meta_entry = false) →
      ∃ msg, run_dumper env s =
        ({ s with output_log := s.output_log ++ [(msg, some "red")] }, false)) ∧
    ((s.exec_entry ≠ "" ∧ s.meta_entry ≠ "" ∧ s.output_entry ≠ "" ∧
        os_path_exists env s.exec_entry = true ∧
        os_path_exists env s.meta_entry = true) →
      run_dumper env s =
        ({ s with run_button_enabled := false, output_log := [] }, true)) := by
  constructor
  · intro h
    by_cases hall : s.exec_entry = "" ∨ s.meta_entry = "" ∨ s.output_entry = ""
    · refine ⟨"Error: All fields must be filled!", ?_⟩
      unfold run_dumper
      rcases hall with h1 | h1 | h1 <;> simp [h1, log_message]
    · push_neg at hall
      obtain ⟨h1, h2, h3⟩ := hall
      by_cases hex : os_path_exists env s.exec_entry
      · by_cases hmeta : os_path_exists env s.meta_entry
        · rcases h with h | h | h | h | h
          · exact absurd h h1
          · exact absurd h h2
          · exact absurd h h3
          · rw [hex] at h; exact absurd h (by simp)
          · rw [hmeta] at h; exact absurd h (by simp)
        · refine ⟨"Error: Metadata file not found at \x27" ++ s.meta_entry ++ "\x27", ?_⟩
          unfold run_dumper
          simp [h1, h2, h3, hex, hmeta, log_message]
      · refine ⟨"Error: Executable file not found at \x27" ++ s.exec_entry ++ "\x27", ?_⟩
        unfold run_dumper
        simp [h1, h2, h3, hex, log_message]
  · rintro ⟨h1, h2, h3, hex, hmeta⟩
    unfold run_dumper
    simp [h1, h2, h3, hex, hmeta]

/-- Witness for C9: a missing executable path appends exactly one entry to
a non-empty log; with both paths present the log is cleared and the worker
spawned. -/
theorem run_dumper_log_frame_witness :
    (∃ msg, run_dumper
      { fs := fun _ => PathKind.absent, makedirs := fun _ => Except.ok (),
        run_proc := fun _ => SubprocResult.completed 0 "" "" }
      { exec_entry := "a", meta_entry := "b", output_entry := "c",
        output_log := [("old", none)], run_button_enabled := true } =
      ({ exec_entry := "a", meta_entry := "b", output_entry := "c",
         output_log := [("old", none), (msg, some "red")], run_button_enabled := true },
       false)) ∧
    run_dumper
      { fs := fun _ => PathKind.file, makedirs := fun _ => Except.ok (),
        run_proc := fun _ => SubprocResult.completed 0 "" "" }
      { exec_entry := "a", meta_entry := "b", output_entry := "c",
        output_log := [("old", none)], run_button_enabled := true } =
      ({ exec_entry := "a", meta_entry := "b", output_entry := "c",
         output_log := [], run_button_enabled := false }, true) := by
  constructor
  · obtain ⟨msg, hmsg⟩ :=
      (run_dumper_log_frame
        { fs := fun _ => PathKind.absent, makedirs := fun _ => Except.ok (),
          run_proc := fun _ => SubprocResult.completed 0 "" "" }
        { exec_entry := "a", meta_entry := "b", output_entry := "c",
          output_log := [("old", none)], run_button_enabled := true }).1
      (Or.inr (Or.inr (Or.inr (Or.inl rfl))))
    exact ⟨msg, hmsg⟩
  · exact
      (run_dumper_log_frame
        { fs := fun _ => PathKind.file, makedirs := fun _ => Except.ok (),
          run_proc := fun _ => SubprocResult.completed 0 "" "" }
        { exec_entry := "a", meta_entry := "b", output_entry := "c",
          output_log := [("old", none)], run_button_enabled := true }).2
      ⟨by decide, by decide, by decide, rfl, rfl⟩

/-- C10: the pre-checks test only `os.path.exists`, never the file type:
whenever the three fields are non-empty and both input paths name anything
present on disk — in particular directories — validation passes and the
worker is spawned. -/
theorem run_dumper_ignores_path_kind (env : Env) (s : AppState)
    (h1 : s.exec_entry ≠ "") (h2 : s.meta_entry ≠ "") (h3 : s.output_entry ≠ "")
    (hex : env.fs s.exec_entry ≠ PathKind.absent)
    (hmeta : env.fs s.meta_entry ≠ PathKind.absent) :
    (run_dumper env s).2 = true := by
  unfold run_dumper
  have hex' : os_path_exists env s.exec_entry = true := by
    unfold os_path_exists
    cases h : env.fs s.exec_entry <;> simp_all
  have hmeta' : os_path_exists env s.meta_entry = true := by
    unfold os_path_exists
    cases h : env.fs s.meta_entry <;> simp_all
  simp [h1, h2, h3, hex', hmeta']

/-- Witness for C10: both input paths name existing directories and the
worker is nevertheless spawned. -/
theorem run_dumper_ignores_path_kind_witness :
    (run_dumper
      { fs := fun _ => PathKind.dir, makedirs := fun _ => Except.ok (),
        run_proc := fun _ => SubprocResult.completed 0 "" "" }
      { exec_entry := "somedir", meta_entry := "otherdir", output_entry := "out",
        output_log := [], run_button_enabled := true }).2 = true :=
  run_dumper_ignores_path_kind _ _ (by decide) (by decide) (by decide)
    (by decide) (by decide)

lemma run_tool_step_button_trace (env : Env) (e m o : String) (s : AppState)
    (tr : List WorkerAction) :
    (run_tool_step env e m o s tr).1.run_button_enabled = true ∧
    (run_tool_step env e m o s tr).2 =
      tr ++ [WorkerAction.runTool ["il2cppdumper", e, m, o],
             WorkerAction.enableTrigger] := by
  unfold run_tool_step
  cases hrun : env.run_proc ["il2cppdumper", e, m, o] with
  | completed rc out err => simp [hrun]
  | file_not_found => simp [hrun]
  | exn msg => simp [hrun]

lemma run_tool_step_completed_log (env : Env) (e m o : String) (s : AppState)
    (tr : List WorkerAction) (rc : Int) (out err : String)
    (hrun : env.run_proc ["il2cppdumper", e, m, o] =
      SubprocResult.completed rc out err) :
    (run_tool_step env e m o s tr).1.output_log =
      s.output_log ++
        [("Preparing to run: `" ++ String.intercalate " " ["il2cppdumper", e, m, o] ++ "`",
          some "blue")] ++
        (if out ≠ "" then [(out, some "info")] else []) ++
        (if err ≠ "" then [("Error: (stderr): " ++ err, some "red")] else []) ++
        [if rc = 0 then ("Command completed successfully! âœ¨", some "green")
         else ("Command failed with exit code " ++ toString rc, some "red")] := by
  unfold run_tool_step
  simp only [hrun]
  split_ifs <;> simp [log_message]

lemma run_tool_step_log_extends (env : Env) (e m o : String) (s : AppState)
    (tr : List WorkerAction) :
    ∃ rest, (run_tool_step env e m o s tr).1.output_log =
      s.output_log ++
        ("Preparing to run: `" ++ String.intercalate " " ["il2cppdumper", e, m, o] ++ "`",
          some "blue") :: rest := by
  cases hrun : env.run_proc ["il2cppdumper", e, m, o] with
  | completed rc out err =>
    refine ⟨(if out ≠ "" then [(out, some "info")] else []) ++
      (if err ≠ "" then [("Error: (stderr): " ++ err, some "red")] else []) ++
      [if rc = 0 then ("Command completed successfully! âœ¨", some "green")
       else ("Command failed with exit code " ++ toString rc, some "red")], ?_⟩
    rw [run_tool_step_completed_log env e m o s tr rc out err hrun]
    simp
  | file_not_found =>
    refine ⟨[("Error: \x27il2cppdumper\x27 command not found. Please ensure it\x27s installed and in your system\x27s PATH.",
      some "red")], ?_⟩
    unfold run_tool_step
    simp [hrun, log_message]
  | exn msg =>
    refine ⟨[("An unexpected error occurred: " ++ msg, some "red")], ?_⟩
    unfold run_tool_step
    simp [hrun, log_message]

/-- Counterexample to C1: on the internal re-validation failure branch the
worker returns immediately (source line 195), which is outside the
`try/finally`, so the trigger is NOT re-enabled.  With an empty executable
field and the button disabled, the worker ends with the button still
disabled and performs no re-enabling action. -/
theorem worker_reenables_trigger_counterexample :
    (run_dumper_async
      { fs := fun _ => PathKind.dir, makedirs := fun _ => Except.ok (),
        run_proc := fun _ => SubprocResult.completed 0 "" "" }
      { exec_entry := "", meta_entry := "meta.dat", output_entry := "out",
        output_log := [], run_button_enabled := false }).1.run_button_enabled = false ∧
    (run_dumper_async
      { fs := fun _ => PathKind.dir, makedirs := fun _ => Except.ok (),
        run_proc := fun _ => SubprocResult.completed 0 "" "" }
      { exec_entry := "", meta_entry := "meta.dat", output_entry := "out",
        output_log := [], run_button_enabled := false }).2 = [] := by
  constructor <;> rfl

/-- C1 (amended): for every worker execution that passes the internal
re-validation (all three fields non-empty), every branch — directory
creation failure, tool not found, non-zero exit, unexpected exception,
success — re-enables the run trigger, exactly once and as the last
action; only the internal re-validation failure branch returns without
re-enabling it. -/
theorem worker_reenables_trigger (env : Env) (s : AppState)
    (h1 : s.exec_entry ≠ "") (h2 : s.meta_entry ≠ "") (h3 : s.output_entry ≠ "") :
    (run_dumper_async env s).1.run_button_enabled = true ∧
    ∃ t, (run_dumper_async env s).2 = t ++ [WorkerAction.enableTrigger] ∧
      WorkerAction.enableTrigger ∉ t := by
  by_cases hd : os_path_isdir env s.output_entry
  · have hstep : run_dumper_async env s =
        run_tool_step env s.exec_entry s.meta_entry s.output_entry s [] := by
      unfold run_dumper_async
      simp [h1, h2, h3, hd]
    rw [hstep]
    obtain ⟨ha, hb⟩ := run_tool_step_button_trace env s.exec_entry s.meta_entry
      s.output_entry s []
    exact ⟨ha, [WorkerAction.runTool
      ["il2cppdumper", s.exec_entry, s.meta_entry, s.output_entry]],
      by rw [hb]; simp, by simp⟩
  · cases hm : env.makedirs s.output_entry with
    | error e =>
      have hstep : run_dumper_async env s =
          ({ log_message s
              ("Error: creating output directory \x27" ++ s.output_entry ++ "\x27: " ++ e)
              (some "red") with run_button_enabled := true },
           [WorkerAction.mkdirs s.output_entry, WorkerAction.enableTrigger]) := by
        unfold run_dumper_async
        simp [h1, h2, h3, hd, hm]
      rw [hstep]
      exact ⟨rfl, [WorkerAction.mkdirs s.output_entry], rfl, by simp⟩
    | ok u =>
      cases u
      have hstep : run_dumper_async env s =
          run_tool_step env s.exec_entry s.meta_entry s.output_entry
            (log_message s
              ("Warning: Output directory doesn\x27t exist, creating output directory: " ++
                s.output_entry) (some "warning"))
            [WorkerAction.mkdirs s.output_entry] := by
        unfold run_dumper_async
        simp [h1, h2, h3, hd, hm]
      rw [hstep]
      obtain ⟨ha, hb⟩ := run_tool_step_button_trace env s.exec_entry s.meta_entry
        s.output_entry
        (log_message s
          ("Warning: Output directory doesn\x27t exist, creating output directory: " ++
            s.output_entry) (some "warning"))
        [WorkerAction.mkdirs s.output_entry]
      exact ⟨ha, [WorkerAction.mkdirs s.output_entry,
        WorkerAction.runTool ["il2cppdumper", s.exec_entry, s.meta_entry, s.output_entry]],
        by rw [hb]; simp, by simp⟩

/-- Witness for the amended C1: a concrete run whose tool exits non-zero
still ends with the button enabled and one final re-enable action. -/
theorem worker_reenables_trigger_witness :
    (run_dumper_async
      { fs := fun _ => PathKind.dir, makedirs := fun _ => Except.ok (),
        run_proc := fun _ => SubprocResult.completed 3 "" "boom" }
      { exec_entry := "a", meta_entry := "b", output_entry := "c",
        output_log := [], run_button_enabled := false }).1.run_button_enabled = true ∧
    ∃ t, (run_dumper_async
      { fs := fun _ => PathKind.dir, makedirs := fun _ => Except.ok (),
        run_proc := fun _ => SubprocResult.completed 3 "" "boom" }
      { exec_entry := "a", meta_entry := "b", output_entry := "c",
        output_log := [], run_button_enabled := false }).2 =
        t ++ [WorkerAction.enableTrigger] ∧
      WorkerAction.enableTrigger ∉ t :=
  worker_reenables_trigger _ _ (by decide) (by decide) (by decide)

/-- C4: when creating the missing output directory fails, the worker logs
one red entry naming the directory and containing the OS error, re-enables
the trigger, and terminates without invoking the dump tool (its action
trace has no tool invocation). -/
theorem worker_mkdir_failure (env : Env) (s : AppState) (e : String)
    (h1 : s.exec_entry ≠ "") (h2 : s.meta_entry ≠ "") (h3 : s.output_entry ≠ "")
    (hdir : os_path_isdir env s.output_entry = false)
    (hmk : env.makedirs s.output_entry = Except.error e) :
    run_dumper_async env s =
      ({ s with
          output_log := s.output_log ++
            [("Error: creating output directory \x27" ++ s.output_entry ++ "\x27: " ++ e,
              some "red")],
          run_button_enabled := true },
       [WorkerAction.mkdirs s.output_entry, WorkerAction.enableTrigger]) := by
  unfold run_dumper_async
  simp [h1, h2, h3, hdir, hmk, log_message]

/-- Witness for C4: a concrete failing `os.makedirs` with error text
`Permission denied`. -/
theorem worker_mkdir_failure_witness :
    run_dumper_async
      { fs := fun _ => PathKind.file, makedirs := fun _ => Except.error "Permission denied",
        run_proc := fun _ => SubprocResult.completed 0 "" "" }
      { exec_entry := "a", meta_entry := "b", output_entry := "c",
        output_log := [], run_button_enabled := false } =
      ({ exec_entry := "a", meta_entry := "b", output_entry := "c",
         output_log :=
           [("Error: creating output directory \x27c\x27: Permission denied",
             some "red")],
         run_button_enabled := true },
       [WorkerAction.mkdirs "c", WorkerAction.enableTrigger]) := by
  have h := worker_mkdir_failure
    { fs := fun _ => PathKind.file, makedirs := fun _ => Except.error "Permission denied",
      run_proc := fun _ => SubprocResult.completed 0 "" "" }
    { exec_entry := "a", meta_entry := "b", output_entry := "c",
      output_log := [], run_button_enabled := false }
    "Permission denied" (by decide) (by decide) (by decide) rfl rfl
  exact h.trans (by decide)

/-- C5: when the output directory does not exist and its creation
succeeds, the worker performs the `os.makedirs` call strictly before the
tool invocation (action trace `[mkdirs, runTool, enableTrigger]`), and the
warning entry naming the created directory is logged immediately before
the entry announcing the tool invocation. -/
theorem worker_creates_output_dir (env : Env) (s : AppState)
    (h1 : s.exec_entry ≠ "") (h2 : s.meta_entry ≠ "") (h3 : s.output_entry ≠ "")
    (hdir : os_path_isdir env s.output_entry = false)
    (hmk : env.makedirs s.output_entry = Except.ok ()) :
    (run_dumper_async env s).2 =
      [WorkerAction.mkdirs s.output_entry,
       WorkerAction.runTool ["il2cppdumper", s.exec_entry, s.meta_entry, s.output_entry],
       WorkerAction.enableTrigger] ∧
    ∃ rest, (run_dumper_async env s).1.output_log =
      s.output_log ++
        ("Warning: Output directory doesn\x27t exist, creating output directory: " ++
          s.output_entry, some "warning") ::
        ("Preparing to run: `" ++
          String.intercalate " "
            ["il2cppdumper", s.exec_entry, s.meta_entry, s.output_entry] ++ "`",
          some "blue") :: rest := by
  have hstep : run_dumper_async env s =
      run_tool_step env s.exec_entry s.meta_entry s.output_entry
        (log_message s
          ("Warning: Output directory doesn\x27t exist, creating output directory: " ++
            s.output_entry) (some "warning"))
        [WorkerAction.mkdirs s.output_entry] := by
    unfold run_dumper_async
    simp [h1, h2, h3, hdir, hmk]
  rw [hstep]
  constructor
  · exact (run_tool_step_button_trace env s.exec_entry s.meta_entry s.output_entry
      (log_message s
        ("Warning: Output directory doesn\x27t exist, creating output directory: " ++
          s.output_entry) (some "warning"))
      [WorkerAction.mkdirs s.output_entry]).2
  · obtain ⟨rest, hrest⟩ := run_tool_step_log_extends env s.exec_entry s.meta_entry
      s.output_entry
      (log_message s
        ("Warning: Output directory doesn\x27t exist, creating output directory: " ++
          s.output_entry) (some "warning"))
      [WorkerAction.mkdirs s.output_entry]
    exact ⟨rest, by rw [hrest]; simp [log_message]⟩

/-- Witness for C5: a concrete run with a missing output directory. -/
theorem worker_creates_output_dir_witness :
    (run_dumper_async
      { fs := fun _ => PathKind.file, makedirs := fun _ => Except.ok (),
        run_proc := fun _ => SubprocResult.completed 0 "done" "" }
      { exec_entry := "a", meta_entry := "b", output_entry := "newdir",
        output_log := [], run_button_enabled := false }).2 =
      [WorkerAction.mkdirs "newdir",
       WorkerAction.runTool ["il2cppdumper", "a", "b", "newdir"],
       WorkerAction.enableTrigger] ∧
    ∃ rest, (run_dumper_async
      { fs := fun _ => PathKind.file, makedirs := fun _ => Except.ok (),
        run_proc := fun _ => SubprocResult.completed 0 "done" "" }
      { exec_entry := "a", meta_entry := "b", output_entry := "newdir",
        output_log := [], run_button_enabled := false }).1.output_log =
      [] ++
        ("Warning: Output directory doesn\x27t exist, creating output directory: newdir",
          some "warning") ::
        ("Preparing to run: `" ++
          String.intercalate " " ["il2cppdumper", "a", "b", "newdir"] ++ "`",
          some "blue") :: rest := by
  have h := worker_creates_output_dir
    { fs := fun _ => PathKind.file, makedirs := fun _ => Except.ok (),
      run_proc := fun _ => SubprocResult.completed 0 "done" "" }
    { exec_entry := "a", meta_entry := "b", output_entry := "newdir",
      output_log := [], run_button_enabled := false }
    (by decide) (by decide) (by decide) rfl rfl
  simpa using h

/-- C6: for every completed dump-tool invocation the appended log entries
after any directory-creation warning are: the command announcement, then
the stdout entry iff stdout is non-empty, then the prefixed stderr entry
iff stderr is non-empty, then exactly one status entry — success-tagged on
exit 0, otherwise a red entry naming the exit code. -/
theorem worker_logs_tool_result (env : Env) (s : AppState) (rc : Int)
    (out err : String)
    (h1 : s.exec_entry ≠ "") (h2 : s.meta_entry ≠ "") (h3 : s.output_entry ≠ "")
    (hcreate : os_path_isdir env s.output_entry = false →
      env.makedirs s.output_entry = Except.ok ())
    (hrun : env.run_proc ["il2cppdumper", s.exec_entry, s.meta_entry, s.output_entry] =
      SubprocResult.completed rc out err) :
    (run_dumper_async env s).1.output_log =
      s.output_log ++
        (if os_path_isdir env s.output_entry then []
         else [("Warning: Output directory doesn\x27t exist, creating output directory: " ++
           s.output_entry, some "warning")]) ++
        [("Preparing to run: `" ++
          String.intercalate " "
            ["il2cppdumper", s.exec_entry, s.meta_entry, s.output_entry] ++ "`",
          some "blue")] ++
        (if out ≠ "" then [(out, some "info")] else []) ++
        (if err ≠ "" then [("Error: (stderr): " ++ err, some "red")] else []) ++
        [if rc = 0 then ("Command completed successfully! âœ¨", some "green")
         else ("Command failed with exit code " ++ toString rc, some "red")] := by
  by_cases hd : os_path_isdir env s.output_entry
  · have hstep : run_dumper_async env s =
        run_tool_step env s.exec_entry s.meta_entry s.output_entry s [] := by
      unfold run_dumper_async
      simp [h1, h2, h3, hd]
    rw [hstep,
      run_tool_step_completed_log env s.exec_entry s.meta_entry s.output_entry
        s [] rc out err hrun]
    simp [hd]
  · have hmk := hcreate (by simpa using hd)
    have hstep : run_dumper_async env s =
        run_tool_step env s.exec_entry s.meta_entry s.output_entry
          (log_message s
            ("Warning: Output directory doesn\x27t exist, creating output directory: " ++
              s.output_entry) (some "warning"))
          [WorkerAction.mkdirs s.output_entry] := by
      unfold run_dumper_async
      simp [h1, h2, h3, hd, hmk]
    rw [hstep,
      run_tool_step_completed_log env s.exec_entry s.meta_entry s.output_entry
        (log_message s
          ("Warning: Output directory doesn\x27t exist, creating output directory: " ++
            s.output_entry) (some "warning"))
        [WorkerAction.mkdirs s.output_entry] rc out err hrun]
    simp [hd, log_message]

/-- Witness for C6, matching the spec example: the tool exits 2 with
stderr `bad header`; the log gains an error entry referencing exit code 2
preceded by the prefixed stderr entry, and no success entry. -/
theorem worker_logs_tool_result_witness :
    (run_dumper_async
      { fs := fun _ => PathKind.dir, makedirs := fun _ => Except.ok (),
        run_proc := fun _ => SubprocResult.completed 2 "" "bad header" }
      { exec_entry := "a", meta_entry := "b", output_entry := "c",
        output_log := [], run_button_enabled := false }).1.output_log =
      [("Preparing to run: `il2cppdumper a b c`", some "blue"),
       ("Error: (stderr): bad header", some "red"),
       ("Command failed with exit code 2", some "red")] := by
  have h := worker_logs_tool_result
    { fs := fun _ => PathKind.dir, makedirs := fun _ => Except.ok (),
      run_proc := fun _ => SubprocResult.completed 2 "" "bad header" }
    { exec_entry := "a", meta_entry := "b", output_entry := "c",
      output_log := [], run_button_enabled := false }
    2 "" "bad header" (by decide) (by decide) (by decide)
    (fun hc => by simp [os_path_isdir] at hc) rfl
  exact h.trans (by decide)
